import Mathlib

/-!
Verification development for the LocalMindAi front-end.

This file gives a shallow embedding, in Lean 4, of the two logic-bearing
pieces of the repository:

* the rich-message formatter of
  `src/components/common/RichMessageRender.tsx` — the `enhancedContent`
  regex preprocessing pipeline (callout extraction, keyboard-shortcut and
  highlight substitution, task-list glyph substitution), the `code`
  renderer component, the copy-to-clipboard acknowledgement state, and the
  agent message header; and

* the agent session controller of the top-level application component
  (`switchToAgent`, `sendMessage`) together with the `useMessages` hook's
  `sendMessage`.

JavaScript regexes are embedded as explicit recursive scanners over
`List Char` that reproduce the semantics of the concrete patterns used by
the source (greedy/lazy quantifiers, lookahead, the `g`/`i`/`m` flags),
and the asynchronous React handlers are embedded as explicit state-passing
functions, split at their `await` points where interleavings matter.
-/

namespace LocalMind

/-! ### Character classes of the JavaScript regexes

`\w`, `\s` and `.` as used by the patterns in `RichMessageRender.tsx`.
The source strings exercised here are ASCII apart from the emoji glyphs,
so for `\s` we carry the ASCII whitespace class (the Unicode space
code points of the full JS class behave identically on every input in
scope), and `.` excludes the JS line terminators. -/

/-- JS `\w` = `[A-Za-z0-9_]`. -/
def isWordChar (c : Char) : Bool :=
  (('a' ≤ c && c ≤ 'z') || ('A' ≤ c && c ≤ 'Z') || ('0' ≤ c && c ≤ '9') || c = '_')

/-- JS `\s` (ASCII part): space, tab, newline, carriage return, vertical tab, form feed. -/
def isJsWhitespace (c : Char) : Bool :=
  (c = ' ' || c = '\t' || c = '\n' || c = '\r' || c = '\x0b' || c = '\x0c')

/-- JS `.` without the `s` flag: any character except a line terminator. -/
def isDotChar (c : Char) : Bool :=
  (c ≠ '\n' && c ≠ '\r' && c ≠ '\u2028' && c ≠ '\u2029')

/-! ### Callout pass

Embeds `content.replace(/::(\w+)::\s*(.+?)(?=\n|$)/g, (match, type, text) =>
  `<div class="callout callout-${type}"><span class="callout-icon">${getCalloutIcon(type)}</span>${text}</div>`)`
from `RichMessageRender.tsx` line 202, together with `getCalloutIcon`
(lines 237–247). -/

/-- A JavaScript value that `icons[type]` can produce: one of the
object literal's own string properties, or a member inherited from
`Object.prototype` (a native function, or for `__proto__` the prototype
object itself) — always truthy, and not a string. -/
inductive JsValue where
  | str (s : String)
  | nativeObject (name : String)
deriving DecidableEq, Repr

/-- The property names an ordinary object literal inherits from
`Object.prototype` (including the Annex B accessors), every one of them
matching `\w+`. -/
def objectPrototypeKeys : List String :=
  ["constructor", "hasOwnProperty", "isPrototypeOf", "propertyIsEnumerable",
   "toLocaleString", "toString", "valueOf", "__proto__",
   "__defineGetter__", "__defineSetter__", "__lookupGetter__", "__lookupSetter__"]

/-- The property access `icons[type]` of `getCalloutIcon` (lines
238–246): the object literal's six own properties first, then the
prototype chain — `Object.prototype`'s members — and `undefined` (here
`none`) for everything else. -/
def calloutIconsAccess (ty : String) : Option JsValue :=
  if ty = "info" then some (JsValue.str "ℹ️")
  else if ty = "warning" then some (JsValue.str "⚠️")
  else if ty = "tip" then some (JsValue.str "💡")
  else if ty = "danger" then some (JsValue.str "🚨")
  else if ty = "success" then some (JsValue.str "✅")
  else if ty = "note" then some (JsValue.str "📝")
  else if ty ∈ objectPrototypeKeys then some (JsValue.nativeObject ty)
  else none

/-- JS truthiness of a possibly-`undefined` value: `undefined` and the
empty string are falsy; every inherited `Object.prototype` member is a
function or a non-null object, hence truthy. -/
def jsTruthyValue : Option JsValue → Bool
  | none => false
  | some (JsValue.str s) => s ≠ ""
  | some (JsValue.nativeObject _) => true

/-- The value of the expression `icons[type] || 'ℹ️'` (line 246): the
accessed value when truthy, the default icon string otherwise. -/
def getCalloutIconValue (ty : String) : JsValue :=
  if jsTruthyValue (calloutIconsAccess ty) then
    (calloutIconsAccess ty).getD (JsValue.str "ℹ️")
  else JsValue.str "ℹ️"

/-- Template-literal interpolation `${...}` of the looked-up value. A
string interpolates to itself; an inherited `Object.prototype` member
interpolates to its engine-defined rendering — a native-function source
string for the function-valued members, `[object Object]` for
`__proto__` — written here in its common shape. No theorem below
depends on the exact text of that rendering: the statements about
inherited members are made at the `JsValue` level. -/
def jsValueToString : JsValue → String
  | JsValue.str s => s
  | JsValue.nativeObject name =>
    if name = "__proto__" then "[object Object]"
    else "function " ++ name ++ "() { [native code] }"

/-- The string `getCalloutIcon(type)` contributes to the replacement
template: the looked-up-or-defaulted value, interpolated. -/
def getCalloutIcon (ty : String) : String :=
  jsValueToString (getCalloutIconValue ty)

/-- The replacement template of the callout rewrite. -/
def mkCalloutDiv (ty icon text : String) : String :=
  "<div class=\"callout callout-" ++ ty ++ "\"><span class=\"callout-icon\">"
    ++ icon ++ "</span>" ++ text ++ "</div>"

/-- Attempt of the sub-pattern `(.+?)(?=\n|$)` at the current position:
the lazy body expands until the lookahead holds, which forces the body to
be the maximal run of `.`-matchable characters, and the attempt succeeds
iff that run is non-empty and is followed by `\n` or the end of input
(the lookahead consumes nothing). -/
def calloutBodyAt (s : List Char) : Option (List Char × List Char) :=
  let b := s.takeWhile isDotChar
  if b.isEmpty then none
  else
    match s.drop b.length with
    | [] => some (b, [])
    | '\n' :: rest => some (b, '\n' :: rest)
    | _ => none

/-- Attempt of `\s*(.+?)(?=\n|$)` at the current position. The greedy
`\s*` prefers the longest whitespace run and backtracks one character at
a time, so the deeper recursive attempt is tried before the body attempt
at the current character. -/
def calloutTail : List Char → Option (List Char × List Char)
  | [] => none
  | c :: cs =>
    if isJsWhitespace c then
      match calloutTail cs with
      | some r => some r
      | none => calloutBodyAt (c :: cs)
    else calloutBodyAt (c :: cs)

/-- Attempt of the whole pattern `::(\w+)::\s*(.+?)(?=\n|$)` at the
current position; on success returns (type capture, text capture, rest of
the input after the match). The greedy `\w+` never needs backtracking
because `:` is not a word character. -/
def matchCalloutAt : List Char → Option (List Char × List Char × List Char)
  | ':' :: ':' :: rest =>
    let ty := rest.takeWhile isWordChar
    if ty.isEmpty then none
    else
      match rest.drop ty.length with
      | ':' :: ':' :: rest2 =>
        match calloutTail rest2 with
        | some (body, after) => some (ty, body, after)
        | none => none
      | _ => none
  | _ => none

/-- Global (`g`-flag) scan of the callout pattern: at each position try a
match; on success emit the replacement and resume after the match, else
copy one character. The fuel argument (initialised to the input length,
an upper bound on the number of scan steps since every step consumes at
least one character) only discharges termination. -/
def calloutGo : Nat → List Char → List Char
  | 0, s => s
  | _ + 1, [] => []
  | fuel + 1, c :: cs =>
    match matchCalloutAt (c :: cs) with
    | some (ty, body, after) =>
      (mkCalloutDiv (String.mk ty) (getCalloutIcon (String.mk ty)) (String.mk body)).data
        ++ calloutGo fuel after
    | none => c :: calloutGo fuel cs

/-- The callout preprocessing rewrite (first `.replace` of `enhancedContent`). -/
def calloutRewrite (s : String) : String :=
  String.mk (calloutGo s.data.length s.data)

/-! ### Keyboard-shortcut and highlight passes

Embeds `.replace(/\+\+(.+?)\+\+/g, '<kbd>$1</kbd>')` and
`.replace(/==(.+?)==/g, '<mark>$1</mark>')` (lines 206 and 208). Both
patterns are `dd(.+?)dd` for a doubled delimiter character `d`, so one
parametrised scanner embeds both. -/

/-- Scan for the lazy body of `dd(.+?)dd` after the opening delimiter
pair: at each step prefer closing (possible once the accumulated body is
non-empty and the next two characters are the delimiter), else extend the
body by one `.`-matchable character. -/
def inlineBody (d : Char) : List Char → List Char → Option (List Char × List Char)
  | acc, c :: c2 :: rest =>
    if c = d && c2 = d && !acc.isEmpty then some (acc.reverse, rest)
    else if isDotChar c then inlineBody d (c :: acc) (c2 :: rest)
    else none
  | _, [_] => none
  | _, [] => none

/-- Global scan for `dd(.+?)dd`, replacing each match by
`pre ++ body ++ post`. -/
def inlineGo (d : Char) (pre post : List Char) : Nat → List Char → List Char
  | 0, s => s
  | _ + 1, [] => []
  | fuel + 1, c :: cs =>
    if c = d then
      match cs with
      | c2 :: rest =>
        if c2 = d then
          match inlineBody d [] rest with
          | some (body, rest2) => pre ++ body ++ post ++ inlineGo d pre post fuel rest2
          | none => c :: inlineGo d pre post fuel cs
        else c :: inlineGo d pre post fuel cs
      | [] => [c]
    else c :: inlineGo d pre post fuel cs

/-- The keyboard-shortcut rewrite `++text++ → <kbd>text</kbd>`. -/
def kbdRewrite (s : String) : String :=
  String.mk (inlineGo '+' "<kbd>".data "</kbd>".data s.data.length s.data)

/-- The highlight rewrite `==text== → <mark>text</mark>`. -/
def markRewrite (s : String) : String :=
  String.mk (inlineGo '=' "<mark>".data "</mark>".data s.data.length s.data)

/-! ### Task-list passes

Embeds `.replace(/^\s*[-*] \[x\]/gim, '- ✅')` and
`.replace(/^\s*[-*] \[ \]/gim, '- ⬜')` (lines 210–211). With the `m`
flag, `^` anchors at the start of the input and after every `'\n'`; with
the `i` flag the literal `x` also matches `X`. -/

/-- Marker class of the checked pattern `[x]` under the `i` flag. -/
def isCheckedMark (c : Char) : Bool := c = 'x' || c = 'X'

/-- Marker class of the unchecked pattern `[ ]`. -/
def isUncheckedMark (c : Char) : Bool := c = ' '

/-- Attempt of `\s*[-*] \[m\]` at an anchored position; the greedy `\s*`
needs no backtracking because neither `-` nor `*` is whitespace. Returns
the rest of the input after the match. -/
def matchTaskAt (isMark : Char → Bool) (s : List Char) : Option (List Char) :=
  match s.dropWhile isJsWhitespace with
  | b :: ' ' :: '[' :: m :: ']' :: rest =>
    if (b = '-' || b = '*') && isMark m then some rest else none
  | _ => none

/-- Global multiline scan: a match may start only where `^` holds, and
after a match the scan resumes right after it (the last matched character
is `]`, so not at a line start). -/
def taskGo (isMark : Char → Bool) (repl : List Char) : Nat → Bool → List Char → List Char
  | 0, _, s => s
  | _ + 1, _, [] => []
  | fuel + 1, atStart, c :: cs =>
    if atStart then
      match matchTaskAt isMark (c :: cs) with
      | some rest => repl ++ taskGo isMark repl fuel false rest
      | none => c :: taskGo isMark repl fuel (c = '\n') cs
    else c :: taskGo isMark repl fuel (c = '\n') cs

/-- The checked task-list rewrite. -/
def taskCheckedRewrite (s : String) : String :=
  String.mk (taskGo isCheckedMark "- ✅".data s.data.length true s.data)

/-- The unchecked task-list rewrite. -/
def taskUncheckedRewrite (s : String) : String :=
  String.mk (taskGo isUncheckedMark "- ⬜".data s.data.length true s.data)

/-- The full `enhancedContent` preprocessing pipeline: the five chained
`.replace` calls of `RichMessageRender.tsx` lines 200–211, in source
order. -/
def enhancedContent (content : String) : String :=
  taskUncheckedRewrite (taskCheckedRewrite (markRewrite (kbdRewrite (calloutRewrite content))))

/-! ### Copy-to-clipboard acknowledgement state

Embeds the `copiedCode` state and `copyToClipboard` of
`RichMessageRenderer` (lines 26–33): a single nullable slot per renderer
instance, set to the copied string, plus a `setTimeout(.., 2000)` whose
callback unconditionally sets the slot back to `null`. Timers are never
cancelled, so the state carries the multiset of pending fire times. -/

structure CopyState where
  copiedCode : Option String
  timers : List Nat
deriving DecidableEq, Repr

/-- The initial `useState<string | null>(null)` state with no pending timers. -/
def CopyState.init : CopyState := { copiedCode := none, timers := [] }

/-- Embeds `copyToClipboard(code)` at wall-clock time `now`:
`setCopiedCode(code)` and `setTimeout(() => setCopiedCode(null), 2000)`.
The clipboard write and the `onCodeCopy` observer call have no effect on
this state. -/
def copyToClipboard (s : CopyState) (code : String) (now : Nat) : CopyState :=
  { copiedCode := some code, timers := s.timers ++ [now + 2000] }

/-- Advance the simulated clock to `now`: every pending timer whose fire
time has been reached runs its callback `setCopiedCode(null)`. -/
def fireDueTimers (s : CopyState) (now : Nat) : CopyState :=
  { copiedCode := if s.timers.any (fun t => t ≤ now) then none else s.copiedCode,
    timers := s.timers.filter (fun t => now < t) }

/-- The copy-button label of a code block whose code string is
`codeString` (line 53): `copiedCode === codeString ? '✓ Copied!' : '📋 Copy'`. -/
def copyLabel (s : CopyState) (codeString : String) : String :=
  if s.copiedCode = some codeString then "✓ Copied!" else "📋 Copy"

/-! ### The `code` renderer component

Embeds the `code(props)` component override (lines 37–76):
`/language-(\w+)/.exec(className || '')`, `String(children).replace(/\n$/, '')`,
and the branch on `!language`. -/

/-- Attempt of the literal-prefixed pattern `language-(\w+)` at the
current position. -/
def languageAt : List Char → Option (List Char)
  | 'l' :: 'a' :: 'n' :: 'g' :: 'u' :: 'a' :: 'g' :: 'e' :: '-' :: rest =>
    let w := rest.takeWhile isWordChar
    if w.isEmpty then none else some w
  | _ => none

/-- Search of `/language-(\w+)/.exec`: first position where the pattern
matches, returning the capture. -/
def findLanguage : List Char → Option (List Char)
  | [] => none
  | c :: cs =>
    match languageAt (c :: cs) with
    | some w => some w
    | none => findLanguage cs

/-- The `language` local of `code(props)`: `match ? match[1] : ''`, with
`className || ''` handling an absent `className`. -/
def extractLanguage (className : Option String) : String :=
  match findLanguage (className.getD "").data with
  | some w => String.mk w
  | none => ""

/-- Embeds `String(children).replace(/\n$/, '')`: strip one trailing newline. -/
def stripTrailingNewline (s : String) : String :=
  match s.data.getLast? with
  | some '\n' => String.mk s.data.dropLast
  | _ => s

/-- The two render shapes the `code` component can return: the
container with language header, copy button and syntax highlighter, or
the plain inline `<code>` element. -/
inductive CodeRender where
  | container (language : String) (codeString : String) (copyButtonLabel : String)
  | inlineCode (children : String)
deriving DecidableEq, Repr

/-- The `code(props)` component body: compute `language` and
`codeString`, then `if (!language)` return the header/copy/highlighter
container, else return the inline `<code>` element. -/
def codeComponent (copied : CopyState) (className : Option String) (children : String) :
    CodeRender :=
  let language := extractLanguage className
  let codeString := stripTrailingNewline children
  if language = "" then
    CodeRender.container language codeString (copyLabel copied codeString)
  else
    CodeRender.inlineCode children

/-! ### Message header

Embeds the header of the rendered block (lines 215–222):
`{sender === 'agent' && agentName && (... {responseTime && <span>{responseTime}ms</span>} ...)}`.
Conjunction in JSX renders the right operand only when the left is
truthy: an absent or empty `agentName` suppresses the header, and an
absent or zero `responseTime` suppresses the latency element. -/

inductive Sender where
  | user
  | agent
deriving DecidableEq, Repr

/-- JS truthiness of an optional string (empty string is falsy). -/
def jsTruthyStr : Option String → Bool
  | none => false
  | some s => s ≠ ""

/-- JS truthiness of an optional number (zero is falsy). -/
def jsTruthyNum : Option Nat → Bool
  | none => false
  | some n => n ≠ 0

/-- What React renders for the child expression
`{responseTime && <span className="response-time">{responseTime}ms</span>}`:
an absent `responseTime` makes the conjunction `undefined`, which React
renders as nothing; a zero `responseTime` makes it the number `0`, which
React renders as the literal text `"0"`; a nonzero `responseTime` makes
it the styled latency span element. -/
inductive JsxChild where
  | nothing
  | text (s : String)
  | timeSpan (ms : Nat)
deriving DecidableEq, Repr

/-- The value of the latency child expression, per JS `&&` (the falsy
left operand is itself the result) and React's rendering of number
children as text. -/
def latencyChild : Option Nat → JsxChild
  | none => JsxChild.nothing
  | some n =>
    if jsTruthyNum (some n) then JsxChild.timeSpan n else JsxChild.text (toString n)

structure MessageHeader where
  agentName : String
  latency : JsxChild
deriving DecidableEq, Repr

/-- The rendered header line of `RichMessageRenderer`: present only for
an agent-sent message with a truthy `agentName`; its latency child is
the rendering of `{responseTime && ...}`. -/
def renderHeader (sender : Sender) (agentName : Option String) (responseTime : Option Nat) :
    Option MessageHeader :=
  if sender = Sender.agent && jsTruthyStr agentName then
    some { agentName := agentName.getD "",
           latency := latencyChild responseTime }
  else
    none

/-! ### Agent session controller (top-level `App` component)

Embeds the state and the `switchToAgent` / `sendMessage` handlers of the
monolithic `App` component. React state updates are modelled as
immediate record updates on an explicit state record; each `async`
handler is split at its `await` point into the synchronous prefix
(`Phase1`) and the resolution continuations (success / rejection, each
including the `finally` block), so that interleavings of overlapping
calls can be expressed; the atomic wrapper composes the phases for the
uncontended case. Wall-clock values (`Date.now()`,
`new Date().toISOString()`) are supplied as parameters. -/

structure Agent where
  id : String
  name : String
  specialization : String
  personality : String
  instructions : String
  created_at : String
deriving DecidableEq, Repr

inductive Role where
  | user
  | assistant
deriving DecidableEq, Repr

structure Message where
  id : String
  agent_id : String
  role : Role
  content : String
  timestamp : String
deriving DecidableEq, Repr

/-- The `App` component state touched by the session handlers. -/
structure AppState where
  agents : List Agent
  currentAgent : Option Agent
  messages : List Message
  inputMessage : String
  isLoading : Bool
  isTyping : Bool
  isSwitchingAgent : Bool
  switchError : Option String
deriving DecidableEq, Repr

/-- A fresh application state (all `useState` initialisers). -/
def AppState.init : AppState :=
  { agents := [], currentAgent := none, messages := [], inputMessage := "",
    isLoading := false, isTyping := false, isSwitchingAgent := false,
    switchError := none }

/-- JS `String.prototype.trim()`: strip leading and trailing whitespace. -/
def jsTrim (s : String) : String :=
  String.mk (((s.data.dropWhile isJsWhitespace).reverse.dropWhile isJsWhitespace).reverse)

/-- The guard of `switchToAgent` (line 106):
`isSwitchingAgent || currentAgent?.id === agent.id`. -/
def switchGuard (st : AppState) (agent : Agent) : Bool :=
  st.isSwitchingAgent ||
    (match st.currentAgent with
     | some a => a.id = agent.id
     | none => false)

/-- Synchronous prefix of `switchToAgent(agent, showLoading)` up to the
`await invoke('get_agent_messages', ...)`: on a failed guard return with
no state change and no fetch issued (second component `false`); otherwise
set the switching flag (only when `showLoading`), clear the switch error,
clear `messages`, `inputMessage` and `isTyping`, set `currentAgent`
optimistically, and issue the history fetch (second component `true`). -/
def switchPhase1 (st : AppState) (agent : Agent) (showLoading : Bool) :
    AppState × Bool :=
  if switchGuard st agent then (st, false)
  else
    ({ st with
        isSwitchingAgent := if showLoading then true else st.isSwitchingAgent,
        switchError := none,
        messages := [],
        inputMessage := "",
        isTyping := false,
        currentAgent := some agent }, true)

/-- Resolution of the history fetch with a list of messages (a `null`
payload is absorbed by the source's `agentMessages || []` into the empty
list): `setMessages(agentMessages || [])`, then the `finally` block
`setIsSwitchingAgent(false)`. Applied to whatever the state is when the
fetch resolves; the source consults no stamp before applying it. -/
def switchResolveOk (st : AppState) (fetched : List Message) : AppState :=
  { st with messages := fetched, isSwitchingAgent := false }

/-- Resolution of a rejected history fetch for `agent`: the `catch` block
(set `switchError`, clear `messages`, clear `currentAgent`) followed by
the `finally` block. -/
def switchResolveErr (st : AppState) (agent : Agent) : AppState :=
  { st with
      switchError := some ("Failed to switch to " ++ agent.name ++ ". Please try again."),
      messages := [],
      currentAgent := none,
      isSwitchingAgent := false }

/-- The whole `switchToAgent` call in the uncontended case: the fetch
(when issued) resolves before anything else runs. -/
def switchToAgent (st : AppState) (agent : Agent) (showLoading : Bool)
    (fetch : Except String (List Message)) : AppState :=
  let r := switchPhase1 st agent showLoading
  if r.2 then
    match fetch with
    | Except.ok ms => switchResolveOk r.1 ms
    | Except.error _ => switchResolveErr r.1 agent
  else r.1

/-- The fixed apologetic error text of `sendMessage`'s catch block
(line 231). -/
def sendErrorText : String :=
  "Sorry, I encountered an error. Please check that Ollama is running and try again."

/-- The whole `sendMessage()` handler of `App` in the uncontended case.
Guard (line 189): `!inputMessage.trim() || isLoading || !currentAgent`.
Otherwise: clear the input, set `isLoading`/`isTyping`, append the
optimistic user message built from the trimmed input, await the backend
send, then append either the assistant message built from the response or
the fixed error message, and in both branches run the `finally` block
clearing `isLoading` and `isTyping`. `nowMs` stands for `Date.now()` and
`nowIso` for `new Date().toISOString()`. -/
def sendMessage (st : AppState) (backend : Except String String)
    (nowMs : Nat) (nowIso : String) : AppState :=
  match st.currentAgent with
  | none => st
  | some agent =>
    if jsTrim st.inputMessage = "" || st.isLoading then st
    else
      let userMessage : Message :=
        { id := "user-" ++ toString nowMs,
          agent_id := agent.id,
          role := Role.user,
          content := jsTrim st.inputMessage,
          timestamp := nowIso }
      match backend with
      | Except.ok response =>
        let assistantMessage : Message :=
          { id := "assistant-" ++ toString nowMs,
            agent_id := agent.id,
            role := Role.assistant,
            content := response,
            timestamp := nowIso }
        { st with
            inputMessage := "",
            messages := st.messages ++ [userMessage, assistantMessage],
            isLoading := false,
            isTyping := false }
      | Except.error _ =>
        let errorMessage : Message :=
          { id := "error-" ++ toString nowMs,
            agent_id := agent.id,
            role := Role.assistant,
            content := sendErrorText,
            timestamp := nowIso }
        { st with
            inputMessage := "",
            messages := st.messages ++ [userMessage, errorMessage],
            isLoading := false,
            isTyping := false }

/-! ### The `useMessages` hook's `sendMessage`

The hooks-based variant (`src/hooks/useMessages.ts` lines 21–63) has the
same shape with the message content passed as an argument, `sender`
instead of `role`, `crypto.randomUUID()` identifiers, and its own fixed
error text. -/

structure HookMessage where
  id : String
  content : String
  sender : Sender
  timestamp : String
  agent_id : String
deriving DecidableEq, Repr

structure HookState where
  messages : List HookMessage
  isLoading : Bool
deriving DecidableEq, Repr

/-- The fixed apologetic error text of the hook's catch block (line 54). -/
def hookSendErrorText : String :=
  "Sorry, I encountered an error processing your message. Please try again."

/-- Embeds `useMessages(agentId).sendMessage(content)` in the uncontended
case; `uid1`/`uid2` stand for the two `crypto.randomUUID()` calls and
`nowIso` for the timestamps. -/
def hookSendMessage (st : HookState) (agentId : Option String) (content : String)
    (backend : Except String String) (uid1 uid2 : String) (nowIso : String) : HookState :=
  match agentId with
  | none => st
  | some aid =>
    if jsTrim content = "" then st
    else
      let userMessage : HookMessage :=
        { id := uid1, content := jsTrim content, sender := Sender.user,
          timestamp := nowIso, agent_id := aid }
      match backend with
      | Except.ok response =>
        { messages := st.messages ++ [userMessage,
            { id := uid2, content := response, sender := Sender.agent,
              timestamp := nowIso, agent_id := aid }],
          isLoading := false }
      | Except.error _ =>
        { messages := st.messages ++ [userMessage,
            { id := uid2, content := hookSendErrorText, sender := Sender.agent,
              timestamp := nowIso, agent_id := aid }],
          isLoading := false }

/-! ### Concrete fixtures used by the scenario theorems -/

/-- A concrete agent used in scenario instances. -/
def agentA : Agent :=
  { id := "agent-a", name := "Ava", specialization := "general",
    personality := "helpful", instructions := "", created_at := "2024-01-01T00:00:00Z" }

/-- A second concrete agent with a distinct id. -/
def agentB : Agent :=
  { id := "agent-b", name := "Bo", specialization := "coding",
    personality := "analytical", instructions := "", created_at := "2024-01-02T00:00:00Z" }

/-- A one-element history belonging to `agentA`. -/
def histA : List Message :=
  [{ id := "m-a1", agent_id := "agent-a", role := Role.assistant,
     content := "history of A", timestamp := "2024-01-03T00:00:00Z" }]

/-- A one-element history belonging to `agentB`. -/
def histB : List Message :=
  [{ id := "m-b1", agent_id := "agent-b", role := Role.assistant,
     content := "history of B", timestamp := "2024-01-03T00:00:00Z" }]

/-! ## Claim theorems -/

/-- Counterexample to claim C10 as stated: at a supplied latency of
exactly 0 the header does not omit the latency entirely. The JSX child
`{responseTime && ...}` evaluates to the number 0, which React renders
as the literal text `"0"` in the header — unlike the absent-latency
case, which renders nothing. -/
theorem header_latency_zero_counterexample :
    renderHeader Sender.agent (some "Ava") (some 0) =
      some { agentName := "Ava", latency := JsxChild.text "0" } ∧
    renderHeader Sender.agent (some "Ava") none =
      some { agentName := "Ava", latency := JsxChild.nothing } ∧
    JsxChild.text "0" ≠ JsxChild.nothing := by
  decide

/-- Claim C10 as amended: for an agent-sent message with an agent name
supplied, the styled latency element is rendered exactly when the
supplied numeric value is nonzero, because the JSX condition tests the
value's truthiness rather than its presence; at a supplied latency of
exactly 0 the styled element is suppressed but the falsy number itself
is rendered as the bare text `"0"`, and only an absent latency renders
nothing at all. -/
theorem header_latency_truthiness (nm : String) (rt : Nat)
    (hnm : nm ≠ "") (hrt : rt ≠ 0) :
    renderHeader Sender.agent (some nm) (some 0) =
      some { agentName := nm, latency := JsxChild.text "0" } ∧
    renderHeader Sender.agent (some nm) (some rt) =
      some { agentName := nm, latency := JsxChild.timeSpan rt } ∧
    renderHeader Sender.agent (some nm) none =
      some { agentName := nm, latency := JsxChild.nothing } := by
  refine ⟨?_, ?_, ?_⟩ <;>
    simp [renderHeader, latencyChild, jsTruthyStr, jsTruthyNum, hnm, hrt]
  rfl

/-- Witness for C10's amended theorem at the concrete inputs `"Ava"`
and latency 5. -/
theorem header_latency_truthiness_witness :
    ("Ava" : String) ≠ "" ∧ (5 : Nat) ≠ 0 ∧
    (renderHeader Sender.agent (some "Ava") (some 0) =
        some { agentName := "Ava", latency := JsxChild.text "0" } ∧
      renderHeader Sender.agent (some "Ava") (some 5) =
        some { agentName := "Ava", latency := JsxChild.timeSpan 5 } ∧
      renderHeader Sender.agent (some "Ava") none =
        some { agentName := "Ava", latency := JsxChild.nothing }) :=
  ⟨by decide, by decide, header_latency_truthiness "Ava" 5 (by decide) (by decide)⟩

/-- Claim C5 (code bug): the `code` component's branch test is inverted.
Evaluating the embedded component at a `className` carrying the language
tag `python` yields the plain inline rendering, while an absent
`className` (no language tag) yields the container with the header — an
empty language label — and the copy control; the claim (and the
component's own comment, "Enhanced code blocks with syntax highlighting
and copy button") describe exactly the opposite assignment. -/
theorem code_language_branch_inverted :
    codeComponent CopyState.init (some "language-python") "print(1)\n" =
      CodeRender.inlineCode "print(1)\n" ∧
    codeComponent CopyState.init none "let x = 1\n" =
      CodeRender.container "" "let x = 1" "📋 Copy" := by
  decide

/-- Counterexample to claim C6 as stated: the acknowledgement is one
shared nullable slot, not independent per code string. Copying block
`"B"` one millisecond after copying block `"A"` clears `"A"`'s control
(its label reverts from the copied acknowledgement to the copy prompt),
and re-copying `"A"` at 1500 does not restart the window: the first
copy's un-cancelled timer still fires at 2000 and clears the slot. -/
theorem copy_ack_shared_slot_counterexample :
    copyLabel (copyToClipboard CopyState.init "A" 0) "A" = "✓ Copied!" ∧
    copyLabel (copyToClipboard (copyToClipboard CopyState.init "A" 0) "B" 1) "A" =
      "📋 Copy" ∧
    (fireDueTimers (copyToClipboard (copyToClipboard CopyState.init "A" 0) "A" 1500)
        2000).copiedCode = none := by
  decide

/-- Claim C6 as amended: the copy acknowledgement is a single slot per
renderer instance. A copy acknowledges exactly the copied string (so at
most one block shows the copied state, and copying a different block
transfers the acknowledgement); each copy schedules a revert 2 seconds
later and never cancels earlier timers; and after a copy from an idle
state (no pending timers) the acknowledgement persists strictly before
the 2-second mark and reverts automatically at it with no further
interaction. -/
theorem copy_ack_single_slot (s : CopyState) (code : String) (t now later : Nat)
    (hnow : now < t + 2000) (hlater : t + 2000 ≤ later) :
    (copyToClipboard s code t).copiedCode = some code ∧
    (copyToClipboard s code t).timers = s.timers ++ [t + 2000] ∧
    (fireDueTimers (copyToClipboard { copiedCode := s.copiedCode, timers := [] } code t)
        now).copiedCode = some code ∧
    (fireDueTimers (copyToClipboard { copiedCode := s.copiedCode, timers := [] } code t)
        later).copiedCode = none := by
  refine ⟨rfl, rfl, ?_, ?_⟩ <;>
    simp [fireDueTimers, copyToClipboard] <;> omega

/-- Witness for C6's amended theorem at a copy of `"A"` at time 0,
observed at 1999 and 2000. -/
theorem copy_ack_single_slot_witness :
    (1999 < 0 + 2000) ∧ (0 + 2000 ≤ 2000) ∧
    ((copyToClipboard CopyState.init "A" 0).copiedCode = some "A" ∧
      (copyToClipboard CopyState.init "A" 0).timers = CopyState.init.timers ++ [0 + 2000] ∧
      (fireDueTimers (copyToClipboard
          { copiedCode := CopyState.init.copiedCode, timers := [] } "A" 0)
          1999).copiedCode = some "A" ∧
      (fireDueTimers (copyToClipboard
          { copiedCode := CopyState.init.copiedCode, timers := [] } "A" 0)
          2000).copiedCode = none) :=
  ⟨by decide, by decide,
    copy_ack_single_slot CopyState.init "A" 0 1999 2000 (by decide) (by decide)⟩

/-- Counterexample to claim C8 as stated: a `++text++` sequence inside a
callout body does not reach the structural parse untransformed — the
keystroke rewrite runs over the already-extracted callout wrapper and
rewrites it. -/
theorem callout_body_rescanned_counterexample :
    enhancedContent "::info:: press ++x++" =
      mkCalloutDiv "info" "ℹ️" "press <kbd>x</kbd>" ∧
    enhancedContent "::info:: press ++x++" ≠
      mkCalloutDiv "info" "ℹ️" "press ++x++" := by
  decide

/-- Claim C8 as amended: the keystroke and highlight rewrites are applied
to the whole string produced by the callout pass, extracted callout
wrappers included, so `++text++` and `==text==` sequences inside a
callout body are rewritten to `<kbd>`/`<mark>` wrappers before the
structural parse. -/
theorem callout_body_rescanned :
    enhancedContent "::info:: press ++x++" =
      mkCalloutDiv "info" "ℹ️" "press <kbd>x</kbd>" ∧
    enhancedContent "::note:: see ==y== here" =
      mkCalloutDiv "note" "📝" "see <mark>y</mark> here" := by
  decide

/-- Claim C1: when the backend send rejects, the optimistically appended
user message stays in place unchanged and exactly one agent-role message
with the fixed apologetic error text is appended after it, with the
sending flag false afterwards — for the `App` handler (whose sending flag
is `isLoading`) and for the `useMessages` hook alike; in particular from
an empty message list, sending `"hello"` against a rejecting backend
yields exactly the user message followed by the error message. -/
theorem sendMessage_optimistic_survives_failure (st : AppState) (a : Agent)
    (e : String) (nowMs : Nat) (nowIso : String)
    (hcur : st.currentAgent = some a)
    (htrim : jsTrim st.inputMessage ≠ "")
    (hload : st.isLoading = false) :
    ((sendMessage st (Except.error e) nowMs nowIso).messages =
      st.messages ++
        [{ id := "user-" ++ toString nowMs, agent_id := a.id, role := Role.user,
           content := jsTrim st.inputMessage, timestamp := nowIso },
         { id := "error-" ++ toString nowMs, agent_id := a.id, role := Role.assistant,
           content := sendErrorText, timestamp := nowIso }] ∧
      (sendMessage st (Except.error e) nowMs nowIso).isLoading = false) ∧
    (∀ (hs : HookState) (aid content uid1 uid2 ts e2 : String),
      jsTrim content ≠ "" →
      (hookSendMessage hs (some aid) content (Except.error e2) uid1 uid2 ts).messages =
        hs.messages ++
          [{ id := uid1, content := jsTrim content, sender := Sender.user,
             timestamp := ts, agent_id := aid },
           { id := uid2, content := hookSendErrorText, sender := Sender.agent,
             timestamp := ts, agent_id := aid }] ∧
      (hookSendMessage hs (some aid) content (Except.error e2) uid1 uid2 ts).isLoading =
        false) ∧
    sendMessage
        { AppState.init with currentAgent := some agentA, inputMessage := "hello" }
        (Except.error "boom") 7 "T0" =
      { AppState.init with
          currentAgent := some agentA,
          messages :=
            [{ id := "user-7", agent_id := "agent-a", role := Role.user,
               content := "hello", timestamp := "T0" },
             { id := "error-7", agent_id := "agent-a", role := Role.assistant,
               content := sendErrorText, timestamp := "T0" }] } := by
  refine ⟨?_, ?_, ?_⟩
  · rw [sendMessage.eq_def, hcur]
    simp [htrim, hload]
  · intro hs aid content uid1 uid2 ts e2 h
    simp [hookSendMessage, h]
  · decide

/-- Witness for C1 at a concrete state holding the message `" hi "`. -/
theorem sendMessage_optimistic_survives_failure_witness :
    ({ AppState.init with currentAgent := some agentA, inputMessage := " hi " } :
        AppState).currentAgent = some agentA ∧
    jsTrim ({ AppState.init with currentAgent := some agentA, inputMessage := " hi " } :
        AppState).inputMessage ≠ "" ∧
    ({ AppState.init with currentAgent := some agentA, inputMessage := " hi " } :
        AppState).isLoading = false ∧
    (((sendMessage
          { AppState.init with currentAgent := some agentA, inputMessage := " hi " }
          (Except.error "down") 3 "T1").messages =
        ({ AppState.init with currentAgent := some agentA, inputMessage := " hi " } :
            AppState).messages ++
          [{ id := "user-" ++ toString 3, agent_id := agentA.id, role := Role.user,
             content := jsTrim " hi ", timestamp := "T1" },
           { id := "error-" ++ toString 3, agent_id := agentA.id, role := Role.assistant,
             content := sendErrorText, timestamp := "T1" }] ∧
        (sendMessage
          { AppState.init with currentAgent := some agentA, inputMessage := " hi " }
          (Except.error "down") 3 "T1").isLoading = false) ∧
      (∀ (hs : HookState) (aid content uid1 uid2 ts e2 : String),
        jsTrim content ≠ "" →
        (hookSendMessage hs (some aid) content (Except.error e2) uid1 uid2 ts).messages =
          hs.messages ++
            [{ id := uid1, content := jsTrim content, sender := Sender.user,
               timestamp := ts, agent_id := aid },
             { id := uid2, content := hookSendErrorText, sender := Sender.agent,
               timestamp := ts, agent_id := aid }] ∧
        (hookSendMessage hs (some aid) content (Except.error e2) uid1 uid2 ts).isLoading =
          false) ∧
      sendMessage
          { AppState.init with currentAgent := some agentA, inputMessage := "hello" }
          (Except.error "boom") 7 "T0" =
        { AppState.init with
            currentAgent := some agentA,
            messages :=
              [{ id := "user-7", agent_id := "agent-a", role := Role.user,
                 content := "hello", timestamp := "T0" },
               { id := "error-7", agent_id := "agent-a", role := Role.assistant,
                 content := sendErrorText, timestamp := "T0" }] }) :=
  ⟨rfl, by decide, rfl,
    sendMessage_optimistic_survives_failure _ agentA "down" 3 "T1" rfl (by decide) rfl⟩

/-- Claim C2: a `switchToAgent` call whose history fetch rejects leaves
`currentAgent = none`, an empty message list, the switch-error field set
to the fixed message, and the switching flag cleared; consequently a
subsequent switch to any agent passes the guard and completes normally. -/
theorem switchAgent_failure_rollback (st : AppState) (b : Agent) (e : String)
    (hsw : st.isSwitchingAgent = false)
    (hne : ∀ a, st.currentAgent = some a → a.id ≠ b.id) :
    (switchToAgent st b true (Except.error e)).currentAgent = none ∧
    (switchToAgent st b true (Except.error e)).messages = [] ∧
    (switchToAgent st b true (Except.error e)).switchError =
      some ("Failed to switch to " ++ b.name ++ ". Please try again.") ∧
    (switchToAgent st b true (Except.error e)).isSwitchingAgent = false ∧
    ∀ (a : Agent) (hist : List Message),
      (switchToAgent (switchToAgent st b true (Except.error e)) a true
          (Except.ok hist)).currentAgent = some a ∧
      (switchToAgent (switchToAgent st b true (Except.error e)) a true
          (Except.ok hist)).messages = hist ∧
      (switchToAgent (switchToAgent st b true (Except.error e)) a true
          (Except.ok hist)).isSwitchingAgent = false := by
  have hguard : switchGuard st b = false := by
    unfold switchGuard
    rw [hsw]
    cases hca : st.currentAgent with
    | none => simp
    | some a => simp [hne a hca]
  have h1 : switchToAgent st b true (Except.error e) =
      switchResolveErr { st with
        isSwitchingAgent := true, switchError := none, messages := [],
        inputMessage := "", isTyping := false, currentAgent := some b } b := by
    simp [switchToAgent, switchPhase1, hguard]
  rw [h1]
  refine ⟨rfl, rfl, rfl, rfl, ?_⟩
  intro a hist
  simp [switchToAgent, switchPhase1, switchGuard, switchResolveErr, switchResolveOk]

/-- Witness for C2 with agent `agentA` active, a failing switch to
`agentB`, and a subsequent successful switch back to `agentA`. -/
theorem switchAgent_failure_rollback_witness :
    ({ AppState.init with agents := [agentA, agentB], currentAgent := some agentA } :
        AppState).isSwitchingAgent = false ∧
    ((switchToAgent
        { AppState.init with agents := [agentA, agentB], currentAgent := some agentA }
        agentB true (Except.error "net")).currentAgent = none ∧
      (switchToAgent
        { AppState.init with agents := [agentA, agentB], currentAgent := some agentA }
        agentB true (Except.error "net")).messages = [] ∧
      (switchToAgent
        { AppState.init with agents := [agentA, agentB], currentAgent := some agentA }
        agentB true (Except.error "net")).switchError =
        some ("Failed to switch to " ++ agentB.name ++ ". Please try again.") ∧
      (switchToAgent
        { AppState.init with agents := [agentA, agentB], currentAgent := some agentA }
        agentB true (Except.error "net")).isSwitchingAgent = false ∧
      ∀ (a : Agent) (hist : List Message),
        (switchToAgent (switchToAgent
            { AppState.init with agents := [agentA, agentB], currentAgent := some agentA }
            agentB true (Except.error "net")) a true (Except.ok hist)).currentAgent =
          some a ∧
        (switchToAgent (switchToAgent
            { AppState.init with agents := [agentA, agentB], currentAgent := some agentA }
            agentB true (Except.error "net")) a true (Except.ok hist)).messages = hist ∧
        (switchToAgent (switchToAgent
            { AppState.init with agents := [agentA, agentB], currentAgent := some agentA }
            agentB true (Except.error "net")) a true (Except.ok hist)).isSwitchingAgent =
          false) :=
  ⟨rfl,
    switchAgent_failure_rollback _ agentB "net" rfl
      (fun a ha => by
        simp only [Option.some.injEq] at ha
        rw [← ha]
        decide)⟩

/-- Claim C3: a `switchToAgent` call made while a switch is in progress
(the switching flag is set), or whose target id equals the current
agent's id, returns before its fetch with no state change and no fetch
issued; and in the double-call scenario — a second `switchToAgent(X)`
arriving while the first is in flight — exactly the first call issues a
fetch, the second is a no-op, and after the fetch resolves the state has
the switching flag false, `currentAgent = X` and X's history loaded. -/
theorem switchAgent_idempotence (st : AppState) (x : Agent) (sl : Bool)
    (hist : List Message) :
    (st.isSwitchingAgent = true → switchPhase1 st x sl = (st, false)) ∧
    (∀ a, st.currentAgent = some a → a.id = x.id → switchPhase1 st x sl = (st, false)) ∧
    (st.isSwitchingAgent = false → (∀ a, st.currentAgent = some a → a.id ≠ x.id) →
      (switchPhase1 st x true).2 = true ∧
      switchPhase1 (switchPhase1 st x true).1 x true = ((switchPhase1 st x true).1, false) ∧
      (switchResolveOk (switchPhase1 st x true).1 hist).isSwitchingAgent = false ∧
      (switchResolveOk (switchPhase1 st x true).1 hist).currentAgent = some x ∧
      (switchResolveOk (switchPhase1 st x true).1 hist).messages = hist) := by
  refine ⟨?_, ?_, ?_⟩
  · intro h
    simp [switchPhase1, switchGuard, h]
  · intro a hca hid
    simp [switchPhase1, switchGuard, hca, hid]
  · intro hsw hne
    cases hca : st.currentAgent with
    | none =>
      refine ⟨?_, ?_, ?_, ?_, ?_⟩ <;>
        simp [switchPhase1, switchGuard, switchResolveOk, hsw, hca]
    | some a =>
      have hid := hne a hca
      refine ⟨?_, ?_, ?_, ?_, ?_⟩ <;>
        simp [switchPhase1, switchGuard, switchResolveOk, hsw, hca, hid]

/-- Witness for C3: a busy state drops the call, a same-agent call drops
the call, and the clean double-call scenario on `agentA`. -/
theorem switchAgent_idempotence_witness :
    (switchPhase1 { AppState.init with isSwitchingAgent := true } agentA true =
      ({ AppState.init with isSwitchingAgent := true }, false)) ∧
    (switchPhase1 { AppState.init with currentAgent := some agentA } agentA true =
      ({ AppState.init with currentAgent := some agentA }, false)) ∧
    ((switchPhase1 AppState.init agentA true).2 = true ∧
      switchPhase1 (switchPhase1 AppState.init agentA true).1 agentA true =
        ((switchPhase1 AppState.init agentA true).1, false) ∧
      (switchResolveOk (switchPhase1 AppState.init agentA true).1 histA).isSwitchingAgent =
        false ∧
      (switchResolveOk (switchPhase1 AppState.init agentA true).1 histA).currentAgent =
        some agentA ∧
      (switchResolveOk (switchPhase1 AppState.init agentA true).1 histA).messages =
        histA) :=
  ⟨(switchAgent_idempotence { AppState.init with isSwitchingAgent := true }
      agentA true histA).1 rfl,
    (switchAgent_idempotence { AppState.init with currentAgent := some agentA }
      agentA true histA).2.1 agentA rfl rfl,
    (switchAgent_idempotence AppState.init agentA true histA).2.2 rfl
      (fun a ha => by simp [AppState.init] at ha)⟩

/-- Counterexample to claim C4 as stated: an interleaving in which a
history fetch for `agentA` resolves last is not discarded. The first
switch (to `agentA`) is started without the loading flag — the
initialisation path `switchToAgent(existingAgents[0], false)` — so a
switch to `agentB` proceeds; B's fetch resolves first, then A's stale
fetch resolves and its messages are applied unconditionally: the final
state shows `agentB` as current with `agentA`'s history. -/
theorem stale_history_applied_counterexample :
    (switchResolveOk (switchResolveOk
        (switchPhase1
          (switchPhase1 { AppState.init with agents := [agentA, agentB] } agentA false).1
          agentB true).1 histB) histA).currentAgent = some agentB ∧
    (switchResolveOk (switchResolveOk
        (switchPhase1
          (switchPhase1 { AppState.init with agents := [agentA, agentB] } agentA false).1
          agentB true).1 histB) histA).messages = histA ∧
    histA ≠ histB := by
  decide

/-- Claim C4 as amended: the code stamps no fetch with an agent id — a
late-resolving history fetch overwrites `messages` unconditionally. When
the first switch is started with the loading flag, a second switch during
flight is rejected outright, so the claimed scenario cannot arise on that
path; but when the first switch was started without the loading flag (the
initialisation path), a subsequent switch to `b` followed by the late
resolution of `a`'s fetch leaves `messages` equal to `a`'s history while
`currentAgent` is `b`. -/
theorem stale_history_overwrite (st : AppState) (a b : Agent)
    (ha hb : List Message)
    (hsw : st.isSwitchingAgent = false) (hcur : st.currentAgent = none)
    (hid : a.id ≠ b.id) :
    (switchPhase1 (switchPhase1 st a true).1 b true).2 = false ∧
    (switchResolveOk (switchResolveOk
        (switchPhase1 (switchPhase1 st a false).1 b true).1 hb) ha).currentAgent =
      some b ∧
    (switchResolveOk (switchResolveOk
        (switchPhase1 (switchPhase1 st a false).1 b true).1 hb) ha).messages = ha := by
  refine ⟨?_, ?_, ?_⟩ <;>
    simp [switchPhase1, switchGuard, switchResolveOk, hsw, hcur, hid]

/-- Witness for C4's amended theorem at the concrete agents and
histories. -/
theorem stale_history_overwrite_witness :
    ({ AppState.init with agents := [agentA, agentB] } : AppState).isSwitchingAgent =
      false ∧
    ({ AppState.init with agents := [agentA, agentB] } : AppState).currentAgent = none ∧
    agentA.id ≠ agentB.id ∧
    ((switchPhase1
        (switchPhase1 { AppState.init with agents := [agentA, agentB] } agentA true).1
        agentB true).2 = false ∧
      (switchResolveOk (switchResolveOk
          (switchPhase1
            (switchPhase1 { AppState.init with agents := [agentA, agentB] } agentA false).1
            agentB true).1 histB) histA).currentAgent = some agentB ∧
      (switchResolveOk (switchResolveOk
          (switchPhase1
            (switchPhase1 { AppState.init with agents := [agentA, agentB] } agentA false).1
            agentB true).1 histB) histA).messages = histA) :=
  ⟨rfl, rfl, by decide,
    stale_history_overwrite _ agentA agentB histA histB rfl rfl (by decide)⟩

/-! ### Helper lemmas on the regex scanners -/

/-- A `takeWhile` over a satisfying prefix followed by a failing head
stops exactly at the boundary. -/
theorem takeWhile_append_all {p : Char → Bool} :
    ∀ l1 l2 : List Char, (∀ c ∈ l1, p c = true) →
      (∀ c, l2.head? = some c → p c = false) →
      (l1 ++ l2).takeWhile p = l1 := by
  intro l1
  induction l1 with
  | nil =>
    intro l2 _ h2
    cases l2 with
    | nil => rfl
    | cons c cs => simp [List.takeWhile_cons, h2 c rfl]
  | cons a l ih =>
    intro l2 h1 h2
    have ha : p a = true := h1 a (by simp)
    simp only [List.cons_append, List.takeWhile_cons, ha, if_true, List.cons.injEq,
      true_and]
    exact ih l2 (fun c hc => h1 c (by simp [hc])) h2

/-- The `dropWhile` counterpart of `takeWhile_append_all`. -/
theorem dropWhile_append_all {p : Char → Bool} :
    ∀ l1 l2 : List Char, (∀ c ∈ l1, p c = true) →
      (∀ c, l2.head? = some c → p c = false) →
      (l1 ++ l2).dropWhile p = l2 := by
  intro l1
  induction l1 with
  | nil =>
    intro l2 _ h2
    cases l2 with
    | nil => rfl
    | cons c cs => simp [List.dropWhile_cons, h2 c rfl]
  | cons a l ih =>
    intro l2 h1 h2
    have ha : p a = true := h1 a (by simp)
    simp only [List.cons_append, List.dropWhile_cons, ha, if_true]
    exact ih l2 (fun c hc => h1 c (by simp [hc])) h2

/-- A `takeWhile` over an everywhere-satisfying list is the identity. -/
theorem takeWhile_all {p : Char → Bool} :
    ∀ l : List Char, (∀ c ∈ l, p c = true) → l.takeWhile p = l := by
  intro l
  induction l with
  | nil => intro _; rfl
  | cons a l ih =>
    intro h
    have ha : p a = true := h a (by simp)
    simp only [List.takeWhile_cons, ha, if_true, List.cons.injEq, true_and]
    exact ih (fun c hc => h c (by simp [hc]))

/-- The body attempt succeeds on a non-empty all-`.` tail, capturing all
of it. -/
theorem calloutBodyAt_all_dot (text : List Char) (hne : text ≠ [])
    (hdot : ∀ c ∈ text, isDotChar c = true) :
    calloutBodyAt text = some (text, []) := by
  have hempty : text.isEmpty = false := by
    cases text with
    | nil => exact absurd rfl hne
    | cons a l => rfl
  simp [calloutBodyAt, takeWhile_all text hdot, hempty, List.drop_length]

/-- The tail attempt `\s*(.+?)(?=\n|$)` on a single space followed by a
non-empty line with no leading whitespace captures exactly the line. -/
theorem calloutTail_space (text : List Char) (hne : text ≠ [])
    (hdot : ∀ c ∈ text, isDotChar c = true)
    (hhead : ∀ c, text.head? = some c → isJsWhitespace c = false) :
    calloutTail (' ' :: text) = some (text, []) := by
  cases text with
  | nil => exact absurd rfl hne
  | cons t ts =>
    have ht : isJsWhitespace t = false := hhead t rfl
    have hbody := calloutBodyAt_all_dot (t :: ts) (by simp) hdot
    have hsp : isJsWhitespace ' ' = true := rfl
    simp [calloutTail, hsp, ht, hbody]

/-- The callout pattern matches a whole line `::ty:: text` exactly,
capturing the type and the text. -/
theorem matchCalloutAt_line (ty text : List Char)
    (hty : ty ≠ []) (htyw : ∀ c ∈ ty, isWordChar c = true)
    (hne : text ≠ []) (hdot : ∀ c ∈ text, isDotChar c = true)
    (hhead : ∀ c, text.head? = some c → isJsWhitespace c = false) :
    matchCalloutAt (':' :: ':' :: (ty ++ ':' :: ':' :: ' ' :: text)) =
      some (ty, text, []) := by
  have htw : (ty ++ ':' :: ':' :: ' ' :: text).takeWhile isWordChar = ty := by
    apply takeWhile_append_all ty _ htyw
    intro c hc
    simp only [List.head?_cons, Option.some.injEq] at hc
    rw [← hc]
    rfl
  have hempty : ty.isEmpty = false := by
    cases ty with
    | nil => exact absurd rfl hty
    | cons a l => rfl
  have hdw : (ty ++ ':' :: ':' :: ' ' :: text).drop ty.length =
      ':' :: ':' :: ' ' :: text := List.drop_left ty _
  simp [matchCalloutAt, htw, hempty, hdw, calloutTail_space text hne hdot hhead]

/-- The global callout scan of the empty remainder is empty. -/
theorem calloutGo_nil (fuel : Nat) : calloutGo fuel [] = [] := by
  cases fuel <;> rfl

/-- The callout rewrite maps a whole line `::ty:: text` to exactly one
callout block carrying the looked-up icon and the text. -/
theorem calloutRewrite_line (ty text : List Char)
    (hty : ty ≠ []) (htyw : ∀ c ∈ ty, isWordChar c = true)
    (hne : text ≠ []) (hdot : ∀ c ∈ text, isDotChar c = true)
    (hhead : ∀ c, text.head? = some c → isJsWhitespace c = false) :
    calloutRewrite (String.mk (':' :: ':' :: (ty ++ ':' :: ':' :: ' ' :: text))) =
      mkCalloutDiv (String.mk ty) (getCalloutIcon (String.mk ty)) (String.mk text) := by
  have hm := matchCalloutAt_line ty text hty htyw hne hdot hhead
  show String.mk (calloutGo (':' :: ':' :: (ty ++ ':' :: ':' :: ' ' :: text)).length
      (':' :: ':' :: (ty ++ ':' :: ':' :: ' ' :: text))) = _
  rw [List.length_cons]
  simp [calloutGo, hm, calloutGo_nil]

/-- Counterexample to claim C7 as stated: the universal "a type not in
the lookup gets the default icon ℹ" fails on the program, because
`icons[type]` consults the prototype chain. At the word-character type
`constructor` — not one of the six keys — the access yields the truthy
inherited `Object.prototype` member, so the `|| 'ℹ️'` fallback does not
fire: the value used is not the default icon string, and the callout
block for `::constructor:: x` carries the interpolated inherited member
rather than ℹ. -/
theorem callout_icon_prototype_counterexample :
    getCalloutIconValue "constructor" = JsValue.nativeObject "constructor" ∧
    getCalloutIconValue "constructor" ≠ JsValue.str "ℹ️" ∧
    jsTruthyValue (calloutIconsAccess "constructor") = true ∧
    (∀ c ∈ "constructor".data, isWordChar c = true) ∧
    calloutRewrite "::constructor:: x" =
      mkCalloutDiv "constructor" (getCalloutIcon "constructor") "x" ∧
    getCalloutIcon "foo" = "ℹ️" := by
  decide

/-- Claim C7 as amended: a line of the form `::ty:: text` (a
word-character type tag, a non-empty single-line text with no leading
whitespace) is rewritten by the callout pass to exactly one callout
block tagged `ty` — the custom type label is kept in the block's class —
whose body is the text to the end of the line and whose icon is
`getCalloutIcon ty`; the lookup sends the six known types to their fixed
icons, and a type that is neither one of the six keys nor the name of an
`Object.prototype` member to the default icon ℹ; but for a type naming
an inherited `Object.prototype` member (`constructor`, `toString`,
`__proto__`, ...) the truthy inherited member is used instead of the
default, because the `||` fallback never fires on it; in particular
`::warning:: be careful` yields one callout tagged `warning` with icon ⚠
and body `be careful`, and `::foo:: x` yields one callout tagged `foo`
with the default icon. -/
theorem callout_line_and_icons (ty text : List Char)
    (hty : ty ≠ []) (htyw : ∀ c ∈ ty, isWordChar c = true)
    (hne : text ≠ []) (hdot : ∀ c ∈ text, isDotChar c = true)
    (hhead : ∀ c ∈ text.take 1, isJsWhitespace c = false) :
    calloutRewrite (String.mk (':' :: ':' :: (ty ++ ':' :: ':' :: ' ' :: text))) =
      mkCalloutDiv (String.mk ty) (getCalloutIcon (String.mk ty)) (String.mk text) ∧
    (getCalloutIcon "info" = "ℹ️" ∧ getCalloutIcon "warning" = "⚠️" ∧
      getCalloutIcon "tip" = "💡" ∧ getCalloutIcon "danger" = "🚨" ∧
      getCalloutIcon "success" = "✅" ∧ getCalloutIcon "note" = "📝") ∧
    (∀ t : String, t ≠ "info" → t ≠ "warning" → t ≠ "tip" → t ≠ "danger" →
      t ≠ "success" → t ≠ "note" → t ∉ objectPrototypeKeys →
      getCalloutIconValue t = JsValue.str "ℹ️" ∧ getCalloutIcon t = "ℹ️") ∧
    (∀ t ∈ objectPrototypeKeys,
      getCalloutIconValue t = JsValue.nativeObject t ∧
      getCalloutIconValue t ≠ JsValue.str "ℹ️") ∧
    enhancedContent "::warning:: be careful" =
      mkCalloutDiv "warning" "⚠️" "be careful" ∧
    enhancedContent "::foo:: x" = mkCalloutDiv "foo" "ℹ️" "x" := by
  refine ⟨?_, by decide, ?_, by decide, by decide, by decide⟩
  · apply calloutRewrite_line ty text hty htyw hne hdot
    intro c hc
    apply hhead
    cases text with
    | nil => simp at hc
    | cons t ts =>
      simp only [List.head?_cons, Option.some.injEq] at hc
      simp [← hc, List.take]
  · intro t h1 h2 h3 h4 h5 h6 h7
    have hv : getCalloutIconValue t = JsValue.str "ℹ️" := by
      simp [getCalloutIconValue, calloutIconsAccess, jsTruthyValue,
        h1, h2, h3, h4, h5, h6, h7]
    exact ⟨hv, by simp [getCalloutIcon, hv, jsValueToString]⟩

/-- Witness for C7's amended theorem at the line `::tip:: hello there`. -/
theorem callout_line_and_icons_witness :
    "tip".data ≠ [] ∧ (∀ c ∈ "tip".data, isWordChar c = true) ∧
    "hello there".data ≠ [] ∧ (∀ c ∈ "hello there".data, isDotChar c = true) ∧
    (∀ c ∈ "hello there".data.take 1, isJsWhitespace c = false) ∧
    (calloutRewrite (String.mk
        (':' :: ':' :: ("tip".data ++ ':' :: ':' :: ' ' :: "hello there".data))) =
      mkCalloutDiv (String.mk "tip".data)
        (getCalloutIcon (String.mk "tip".data)) (String.mk "hello there".data) ∧
      (getCalloutIcon "info" = "ℹ️" ∧ getCalloutIcon "warning" = "⚠️" ∧
        getCalloutIcon "tip" = "💡" ∧ getCalloutIcon "danger" = "🚨" ∧
        getCalloutIcon "success" = "✅" ∧ getCalloutIcon "note" = "📝") ∧
      (∀ t : String, t ≠ "info" → t ≠ "warning" → t ≠ "tip" → t ≠ "danger" →
        t ≠ "success" → t ≠ "note" → t ∉ objectPrototypeKeys →
        getCalloutIconValue t = JsValue.str "ℹ️" ∧ getCalloutIcon t = "ℹ️") ∧
      (∀ t ∈ objectPrototypeKeys,
        getCalloutIconValue t = JsValue.nativeObject t ∧
        getCalloutIconValue t ≠ JsValue.str "ℹ️") ∧
      enhancedContent "::warning:: be careful" =
        mkCalloutDiv "warning" "⚠️" "be careful" ∧
      enhancedContent "::foo:: x" = mkCalloutDiv "foo" "ℹ️" "x") :=
  ⟨by decide, by decide, by decide, by decide, by decide,
    callout_line_and_icons "tip".data "hello there".data
      (by decide) (by decide) (by decide) (by decide) (by decide)⟩

/-- Away from a line start, a newline-free remainder is copied verbatim
by the task scan. -/
theorem taskGo_false_id (isMark : Char → Bool) (repl : List Char) :
    ∀ (s : List Char) (fuel : Nat), s.length ≤ fuel →
      (∀ c ∈ s, c ≠ '\n') → taskGo isMark repl fuel false s = s := by
  intro s
  induction s with
  | nil => intro fuel _ _; cases fuel <;> rfl
  | cons c cs ih =>
    intro fuel hlen hnl
    cases fuel with
    | zero => simp at hlen
    | succ f =>
      have hc : c ≠ '\n' := hnl c (by simp)
      simp only [taskGo, if_neg (by simp : ¬ false = true), hc, decide_eq_false hc,
        List.cons.injEq, true_and]
      exact ih f (by simp at hlen; omega) (fun d hd => hnl d (by simp [hd]))

/-- A successful anchored match rewrites the matched prefix to the
replacement and copies the newline-free remainder. -/
theorem taskGo_true_match (isMark : Char → Bool) (repl : List Char)
    (s rest : List Char) (fuel : Nat)
    (hm : matchTaskAt isMark s = some rest)
    (hlen : s.length ≤ fuel) (hsz : rest.length + 5 ≤ s.length)
    (hnl : ∀ c ∈ rest, c ≠ '\n') :
    taskGo isMark repl fuel true s = repl ++ rest := by
  cases s with
  | nil => simp [matchTaskAt] at hm
  | cons c cs =>
    cases fuel with
    | zero => simp at hlen
    | succ f =>
      simp only [taskGo, if_true, hm]
      congr 1
      apply taskGo_false_id isMark repl rest f ?_ hnl
      simp only [List.length_cons] at hlen hsz
      omega

/-- A failed anchored match on a newline-free input leaves it unchanged. -/
theorem taskGo_true_nomatch (isMark : Char → Bool) (repl : List Char)
    (s : List Char) (fuel : Nat)
    (hm : matchTaskAt isMark s = none)
    (hlen : s.length ≤ fuel) (hnl : ∀ c ∈ s, c ≠ '\n') :
    taskGo isMark repl fuel true s = s := by
  cases s with
  | nil => cases fuel <;> rfl
  | cons c cs =>
    cases fuel with
    | zero => simp at hlen
    | succ f =>
      have hc : c ≠ '\n' := hnl c (by simp)
      simp only [taskGo, if_true, hm, decide_eq_false hc, List.cons.injEq, true_and]
      exact taskGo_false_id isMark repl cs f (by simp at hlen; omega)
        (fun d hd => hnl d (by simp [hd]))

/-- The anchored task pattern matches a `ws bullet space [m] rest` prefix
when the marker satisfies the marker class, consuming through `]`. -/
theorem matchTaskAt_form (isMark : Char → Bool) (ws : List Char) (b m : Char)
    (rest : List Char) (hws : ∀ c ∈ ws, isJsWhitespace c = true)
    (hb : b = '-' ∨ b = '*') (hm : isMark m = true) :
    matchTaskAt isMark (ws ++ b :: ' ' :: '[' :: m :: ']' :: rest) = some rest := by
  have hdw : (ws ++ b :: ' ' :: '[' :: m :: ']' :: rest).dropWhile isJsWhitespace =
      b :: ' ' :: '[' :: m :: ']' :: rest := by
    apply dropWhile_append_all ws _ hws
    intro c hc
    simp only [List.head?_cons, Option.some.injEq] at hc
    rcases hb with rfl | rfl <;> rw [← hc] <;> rfl
  simp only [matchTaskAt, hdw]
  rcases hb with rfl | rfl <;> simp [hm]

/-- The anchored task pattern rejects the same shape when the marker
fails the marker class. -/
theorem matchTaskAt_form_none (isMark : Char → Bool) (ws : List Char) (b m : Char)
    (rest : List Char) (hws : ∀ c ∈ ws, isJsWhitespace c = true)
    (hb : b = '-' ∨ b = '*') (hm : isMark m = false) :
    matchTaskAt isMark (ws ++ b :: ' ' :: '[' :: m :: ']' :: rest) = none := by
  have hdw : (ws ++ b :: ' ' :: '[' :: m :: ']' :: rest).dropWhile isJsWhitespace =
      b :: ' ' :: '[' :: m :: ']' :: rest := by
    apply dropWhile_append_all ws _ hws
    intro c hc
    simp only [List.head?_cons, Option.some.injEq] at hc
    rcases hb with rfl | rfl <;> rw [← hc] <;> rfl
  simp only [matchTaskAt, hdw]
  simp [hm]

/-- The check-glyph output `- ✅rest` is not matched by the unchecked
pattern. -/
theorem matchTaskAt_checked_output (isMark : Char → Bool) (rest : List Char) :
    matchTaskAt isMark ('-' :: ' ' :: '✅' :: rest) = none := rfl

/-- Claim C9: on a line beginning, after optional spaces, with a `-` or
`*` bullet and a task marker, the task-list preprocessing (checked pass
then unchecked pass) replaces the matched prefix with the corresponding
glyph form: `[x]` or `[X]` yields the checked glyph and `[ ]` the
unchecked glyph, the remainder of the line following unchanged; all lines
of the input are scanned, as the concrete multiline instance shows. -/
theorem task_marker_rewrite (ws : List Char) (b m : Char) (rest : List Char)
    (hws : ∀ c ∈ ws, c = ' ') (hb : b = '-' ∨ b = '*')
    (hm : m = 'x' ∨ m = 'X') (hrest : ∀ c ∈ rest, c ≠ '\n') :
    taskUncheckedRewrite (taskCheckedRewrite
        (String.mk (ws ++ b :: ' ' :: '[' :: m :: ']' :: rest))) =
      String.mk ("- ✅".data ++ rest) ∧
    taskUncheckedRewrite (taskCheckedRewrite
        (String.mk (ws ++ b :: ' ' :: '[' :: ' ' :: ']' :: rest))) =
      String.mk ("- ⬜".data ++ rest) ∧
    enhancedContent "- [x] done" = "- ✅ done" ∧
    enhancedContent "- [ ] todo" = "- ⬜ todo" ∧
    enhancedContent "- [X] mixed" = "- ✅ mixed" ∧
    enhancedContent "- [x] a\nplain\n* [ ] b" = "- ✅ a\nplain\n- ⬜ b" := by
  have hws' : ∀ c ∈ ws, isJsWhitespace c = true := by
    intro c hc
    rw [hws c hc]
    rfl
  have hrest5 : ∀ c ∈ '-' :: ' ' :: '✅' :: rest, c ≠ '\n' := by
    intro c hc
    simp only [List.mem_cons] at hc
    rcases hc with rfl | rfl | rfl | hc
    · decide
    · decide
    · decide
    · exact hrest c hc
  refine ⟨?_, ?_, by decide, by decide, by decide, by decide⟩
  · have hmark : isCheckedMark m = true := by
      rcases hm with rfl | rfl <;> rfl
    have h1 : taskCheckedRewrite (String.mk (ws ++ b :: ' ' :: '[' :: m :: ']' :: rest)) =
        String.mk ("- ✅".data ++ rest) := by
      unfold taskCheckedRewrite
      congr 1
      apply taskGo_true_match isCheckedMark _ _ rest _
        (matchTaskAt_form isCheckedMark ws b m rest hws' hb hmark) (le_refl _) ?_ hrest
      simp [List.length_append]
    rw [h1]
    unfold taskUncheckedRewrite
    congr 1
    show taskGo isUncheckedMark "- ⬜".data ('-' :: ' ' :: '✅' :: rest).length true
        ('-' :: ' ' :: '✅' :: rest) = '-' :: ' ' :: '✅' :: rest
    exact taskGo_true_nomatch isUncheckedMark _ _ _
      (matchTaskAt_checked_output isUncheckedMark rest) (le_refl _) hrest5
  · have hnl : ∀ c ∈ ws ++ b :: ' ' :: '[' :: ' ' :: ']' :: rest, c ≠ '\n' := by
      intro c hc
      simp only [List.mem_append, List.mem_cons] at hc
      rcases hc with hc | rfl | rfl | rfl | rfl | rfl | hc
      · rw [hws c hc]; decide
      · rcases hb with rfl | rfl <;> decide
      · decide
      · decide
      · decide
      · decide
      · exact hrest c hc
    have h1 : taskCheckedRewrite (String.mk (ws ++ b :: ' ' :: '[' :: ' ' :: ']' :: rest)) =
        String.mk (ws ++ b :: ' ' :: '[' :: ' ' :: ']' :: rest) := by
      unfold taskCheckedRewrite
      congr 1
      exact taskGo_true_nomatch isCheckedMark _ _ _
        (matchTaskAt_form_none isCheckedMark ws b ' ' rest hws' hb rfl) (le_refl _) hnl
    rw [h1]
    unfold taskUncheckedRewrite
    congr 1
    apply taskGo_true_match isUncheckedMark _ _ rest _
      (matchTaskAt_form isUncheckedMark ws b ' ' rest hws' hb rfl) (le_refl _) ?_ hrest
    simp [List.length_append]

/-- Witness for C9 at the line `  * [X] mixed case`. -/
theorem task_marker_rewrite_witness :
    (∀ c ∈ "  ".data, c = ' ') ∧ ('*' = '-' ∨ '*' = '*') ∧
    ('X' = 'x' ∨ 'X' = 'X') ∧ (∀ c ∈ " mixed case".data, c ≠ '\n') ∧
    (taskUncheckedRewrite (taskCheckedRewrite
        (String.mk ("  ".data ++ '*' :: ' ' :: '[' :: 'X' :: ']' :: " mixed case".data))) =
      String.mk ("- ✅".data ++ " mixed case".data) ∧
      taskUncheckedRewrite (taskCheckedRewrite
        (String.mk ("  ".data ++ '*' :: ' ' :: '[' :: ' ' :: ']' :: " mixed case".data))) =
        String.mk ("- ⬜".data ++ " mixed case".data) ∧
      enhancedContent "- [x] done" = "- ✅ done" ∧
      enhancedContent "- [ ] todo" = "- ⬜ todo" ∧
      enhancedContent "- [X] mixed" = "- ✅ mixed" ∧
      enhancedContent "- [x] a\nplain\n* [ ] b" = "- ✅ a\nplain\n- ⬜ b") :=
  ⟨by decide, by decide, by decide, by decide,
    task_marker_rewrite "  ".data '*' 'X' " mixed case".data
      (by decide) (by decide) (by decide) (by decide)⟩

end LocalMind






